import Mathlib

/-!
Verification of the dominant-fuel classification pipeline of the
heating-fuel analysis repository (scripts/process_data.py).

The pipeline is embedded shallowly:
* a raw row is a record of the columns the classifier reads after the
  year-specific renaming (`GEOID`, `Total_Housing_Units`, and the nine
  canonical fuel-count columns);
* a nullable numeric column (pandas NaN) is an `Option ℤ`;
* `np.round(x, 1)` is modelled exactly as round-half-to-even at one
  decimal over the rationals;
* each derived column of the processed DataFrame becomes a function of
  the row, faithful to the `np.where` / `apply` expressions that build it.
-/

namespace HeatingFuel

/-- One raw row after column projection and renaming: the columns the
classifier actually reads.  `Total_Housing_Units` is `Option ℤ` because the
source guards it with `notna()`; the nine fuel counts are the columns
`Natural_Gas` … `No_Fuel` in the source's canonical order. -/
structure Row where
  GEOID : String
  Total_Housing_Units : Option ℤ
  Natural_Gas : ℤ
  Propane : ℤ
  Electricity : ℤ
  Fuel_Oil : ℤ
  Coal : ℤ
  Wood : ℤ
  Solar : ℤ
  Other : ℤ
  No_Fuel : ℤ

/-- The list `fuel_columns` of process_data.py (line 112): the nine fuel
columns in canonical order. -/
def fuel_columns : List String :=
  ["Natural_Gas", "Propane", "Electricity", "Fuel_Oil",
   "Coal", "Wood", "Solar", "Other", "No_Fuel"]

/-- The nine (column name, count) pairs of a row, in the canonical order of
`fuel_columns`: the view of the row that the dominant-fuel scan iterates. -/
def fuelPairs (r : Row) : List (String × ℤ) :=
  [("Natural_Gas", r.Natural_Gas), ("Propane", r.Propane),
   ("Electricity", r.Electricity), ("Fuel_Oil", r.Fuel_Oil),
   ("Coal", r.Coal), ("Wood", r.Wood), ("Solar", r.Solar),
   ("Other", r.Other), ("No_Fuel", r.No_Fuel)]

/-- The nine fuel counts of a row, in canonical order. -/
def fuelValues (r : Row) : List ℤ :=
  (fuelPairs r).map Prod.snd

/-- `df['_max_fuel_value'] = fuel_counts.max(axis=1)` (line 125): the row
maximum over the nine fuel counts. -/
def max_fuel_value (r : Row) : ℤ :=
  (fuelValues r).foldl max r.Natural_Gas

/-- `df['_tie_count'] = (fuel_counts == max).sum(axis=1)` (line 126): how
many of the nine fuel counts equal the row maximum. -/
def tie_count (r : Row) : ℕ :=
  (fuelValues r).countP (fun v => decide (v = max_fuel_value r))

/-- `df['Data_Quality_Check'] = np.where(notna & (> 0), 'Valid_Data',
'Insufficient_Data')` (lines 105-109). -/
def Data_Quality_Check (r : Row) : String :=
  match r.Total_Housing_Units with
  | some t => if 0 < t then "Valid_Data" else "Insufficient_Data"
  | none => "Insufficient_Data"

/-- Round a rational to the nearest integer, ties to even: the rounding mode
of `np.round`. -/
def roundHalfEven (x : ℚ) : ℤ :=
  if x - ⌊x⌋ < 1/2 then ⌊x⌋
  else if 1/2 < x - ⌊x⌋ then ⌊x⌋ + 1
  else if ⌊x⌋ % 2 = 0 then ⌊x⌋ else ⌊x⌋ + 1

/-- `np.round(x, 1)`: round to one decimal place, ties to even. -/
def round1 (x : ℚ) : ℚ :=
  (roundHalfEven (x * 10) : ℚ) / 10

/-- One cell of the `Pct_<fuel>` columns (lines 115-121):
`np.where(quality == 'Insufficient_Data', nan, round((count/total)*100, 1))`,
with `none` standing for NaN.  `v` is the row's count for the fuel. -/
def Pct (r : Row) (v : ℤ) : Option ℚ :=
  if Data_Quality_Check r = "Insufficient_Data" then none
  else
    match r.Total_Housing_Units with
    | some t => some (round1 (((v : ℚ) / (t : ℚ)) * 100))
    | none => none

/-- `df['Has_Dom_Tie'] = np.where(total == 0, False, tie_count > 1)`
(lines 128-132).  A NaN total compares unequal to 0 in pandas, hence the
`some 0` pattern: only a present, zero total forces `false`. -/
def Has_Dom_Tie (r : Row) : Bool :=
  if r.Total_Housing_Units = some 0 then false
  else decide (1 < tie_count r)

/-- `_identify_dominant_fuel` (lines 159-186): quality gate, then tie gate,
then the first fuel (in canonical order) whose count equals the row maximum;
the unreachable fallthrough returns the `Error` sentinel. -/
def identify_dominant_fuel (r : Row) : String :=
  if Data_Quality_Check r = "Insufficient_Data" then "No_Data"
  else if Has_Dom_Tie r then "Tie"
  else
    match (fuelPairs r).find? (fun p => decide (p.2 = max_fuel_value r)) with
    | some p => p.1
    | none => "Error"

/-- `df['Dom_Fuel_Type']` (lines 135-138): the row-wise application of
`_identify_dominant_fuel`. -/
def Dom_Fuel_Type (r : Row) : String :=
  identify_dominant_fuel r

/-- `df['Dom_Fuel_Count'] = np.where(insufficient | tie, nan, max)`
(lines 141-145). -/
def Dom_Fuel_Count (r : Row) : Option ℤ :=
  if Data_Quality_Check r = "Insufficient_Data" ∨ Has_Dom_Tie r = true then none
  else some (max_fuel_value r)

/-- `df['Dom_Fuel_Pct'] = np.where(insufficient | tie, nan,
round((max/total)*100, 1))` (lines 147-151). -/
def Dom_Fuel_Pct (r : Row) : Option ℚ :=
  if Data_Quality_Check r = "Insufficient_Data" ∨ Has_Dom_Tie r = true then none
  else
    match r.Total_Housing_Units with
    | some t => some (round1 (((max_fuel_value r : ℚ) / (t : ℚ)) * 100))
    | none => none

/-- `df['FIPS_Code'] = df['GEOID'].str[-11:]` (line 102): the Python slice
`s[-11:]`, which drops all but the last 11 characters and returns the whole
string when it is shorter than 11. -/
def FIPS_Code (s : String) : String :=
  String.mk (s.data.drop (s.data.length - 11))

/-- The spec's words for the FIPS rule, stated independently of the slice:
the last 11 characters of the string. -/
def lastEleven (s : String) : String :=
  String.mk ((s.data.reverse.take 11).reverse)

/-- `simplify_fuel_categories` (lines 202-225). -/
def simplify_fuel_categories (fuel_type : String) : String :=
  if fuel_type ∈ ["Electricity", "Natural_Gas", "Propane", "Fuel_Oil", "Wood"] then
    fuel_type
  else if fuel_type ∈ ["Tie", "Coal", "Solar", "Other"] then
    "Other"
  else
    "No_Fuel_Missing"

/-- One entry of the `column_mappings` dictionary (lines 47-63):
which raw column holds the geographic identifier, which holds the name, and
the year's fuel-column code (`fuel_prefix` in the source). -/
structure ColumnMapping where
  geoidCol : String
  nameCol : String
  fuelFieldCode : String

/-- The `column_mappings` dictionary (lines 47-63), as a partial lookup:
`none` models a key miss. -/
def column_mappings (year : ℤ) : Option ColumnMapping :=
  if year = 2015 then some ⟨"GEOID", "NAME_E", "ADQYE"⟩
  else if year = 2020 then some ⟨"GEOID", "NAME_E", "AMVDE"⟩
  else if year = 2023 then some ⟨"GEO_ID", "NAME_E", "ASUPE"⟩
  else none

/-- The classifier's output row: the derived columns of the processed
DataFrame. -/
structure ClassifiedRow where
  GEOID : String
  FIPS : String
  Total_Housing_Units : Option ℤ
  quality : String
  pcts : List (String × Option ℚ)
  hasTie : Bool
  domType : String
  domCount : Option ℤ
  domPct : Option ℚ

/-- The per-row transformation performed by `process_heating_fuel_data`
after column projection: every derived column of the output. -/
def classifyRow (r : Row) : ClassifiedRow where
  GEOID := r.GEOID
  FIPS := FIPS_Code r.GEOID
  Total_Housing_Units := r.Total_Housing_Units
  quality := Data_Quality_Check r
  pcts := (fuelPairs r).map (fun p => (p.1, Pct r p.2))
  hasTie := Has_Dom_Tie r
  domType := Dom_Fuel_Type r
  domCount := Dom_Fuel_Count r
  domPct := Dom_Fuel_Pct r

/-- `process_heating_fuel_data` (lines 18-156): the year gate (lines 65-66
raise `KeyError` with the quoted message) followed by the row-wise
classification. -/
def process_heating_fuel_data (df : List Row) (year : ℤ) :
    Except String (List ClassifiedRow) :=
  match column_mappings year with
  | none =>
      Except.error ("Year must be 2015, 2020, or 2023. Got: " ++ toString year)
  | some _ => Except.ok (df.map classifyRow)

/-! ### Helper lemmas -/

/-- `roundHalfEven` moves its argument by at most one half. -/
lemma roundHalfEven_bounds (x : ℚ) :
    x - 1/2 ≤ (roundHalfEven x : ℚ) ∧ (roundHalfEven x : ℚ) ≤ x + 1/2 := by
  have h1 : (⌊x⌋ : ℚ) ≤ x := Int.floor_le x
  have h2 : x < ⌊x⌋ + 1 := Int.lt_floor_add_one x
  unfold roundHalfEven
  split_ifs with hf hg he
  · exact ⟨by linarith, by linarith⟩
  · push_cast
    exact ⟨by linarith, by linarith⟩
  · exact ⟨by linarith, by linarith⟩
  · push_cast
    exact ⟨by linarith, by linarith⟩

/-- `round1` of a rational in `[0, 100]` stays in `[0, 100]`. -/
lemma round1_bounds {x : ℚ} (h0 : 0 ≤ x) (h100 : x ≤ 100) :
    0 ≤ round1 x ∧ round1 x ≤ 100 := by
  obtain ⟨hlo, hhi⟩ := roundHalfEven_bounds (x * 10)
  have hn0 : (0 : ℤ) ≤ roundHalfEven (x * 10) := by
    have hq : ((-1 : ℤ) : ℚ) < (roundHalfEven (x * 10) : ℚ) := by push_cast; linarith
    have := Int.cast_lt.mp hq
    omega
  have hn1000 : roundHalfEven (x * 10) ≤ 1000 := by
    have hq : (roundHalfEven (x * 10) : ℚ) < ((1001 : ℤ) : ℚ) := by push_cast; linarith
    have := Int.cast_lt.mp hq
    omega
  unfold round1
  constructor
  · apply div_nonneg _ (by norm_num)
    exact_mod_cast hn0
  · rw [div_le_iff₀ (by norm_num : (0:ℚ) < 10)]
    calc (roundHalfEven (x * 10) : ℚ) ≤ (1000 : ℤ) := by exact_mod_cast hn1000
      _ = 100 * 10 := by norm_num

/-- The quality flag is `Valid_Data` exactly when the total is present and
positive. -/
lemma valid_iff (r : Row) :
    Data_Quality_Check r = "Valid_Data" ↔
      ∃ t, r.Total_Housing_Units = some t ∧ 0 < t := by
  unfold Data_Quality_Check
  cases h : r.Total_Housing_Units with
  | none => simp
  | some t =>
    by_cases ht : 0 < t
    · simp [ht]
    · simp [ht]

/-- The quality flag takes only the two documented values. -/
lemma quality_dichotomy (r : Row) :
    Data_Quality_Check r = "Valid_Data" ∨
      Data_Quality_Check r = "Insufficient_Data" := by
  unfold Data_Quality_Check
  cases r.Total_Housing_Units with
  | none => right; rfl
  | some t =>
    by_cases ht : 0 < t
    · left; simp [ht]
    · right; simp [ht]

/-- A valid row is not flagged insufficient. -/
lemma valid_ne_insufficient {r : Row} (h : Data_Quality_Check r = "Valid_Data") :
    ¬ Data_Quality_Check r = "Insufficient_Data" := by
  rw [h]; decide

/-- `tie_count` counted over the (name, value) pairs instead of the values. -/
lemma tie_count_eq_pairs (r : Row) :
    tie_count r =
      (fuelPairs r).countP (fun q => decide (q.2 = max_fuel_value r)) := by
  simp only [tie_count, fuelValues, List.countP_map]
  rfl

/-- With at most one maximal fuel, the tie flag is off. -/
lemma hasDomTie_eq_false (r : Row) (h : tie_count r ≤ 1) :
    Has_Dom_Tie r = false := by
  unfold Has_Dom_Tie
  split_ifs
  · rfl
  · simp only [decide_eq_false_iff_not]
    omega

/-- With two or more maximal fuels and a total other than zero, the tie flag
is on. -/
lemma hasDomTie_eq_true (r : Row) (h : 1 < tie_count r)
    (h0 : r.Total_Housing_Units ≠ some 0) :
    Has_Dom_Tie r = true := by
  unfold Has_Dom_Tie
  rw [if_neg h0]
  simpa using h

/-- A left fold of `max` either keeps its seed or lands in the list. -/
lemma foldl_max_choice : ∀ (l : List ℤ) (a : ℤ),
    l.foldl max a = a ∨ l.foldl max a ∈ l := by
  intro l
  induction l with
  | nil => intro a; left; rfl
  | cons b t ih =>
    intro a
    have hstep : (b :: t).foldl max a = t.foldl max (max a b) := rfl
    rcases ih (max a b) with h | h
    · rcases max_choice a b with hab | hab
      · left; rw [hstep, h, hab]
      · right; rw [hstep, h, hab]; exact List.mem_cons_self b t
    · right; rw [hstep]; exact List.mem_cons_of_mem b h

/-- The row maximum is attained by one of the nine fuel counts. -/
lemma max_fuel_mem (r : Row) : max_fuel_value r ∈ fuelValues r := by
  rcases foldl_max_choice (fuelValues r) r.Natural_Gas with h | h
  · simp only [max_fuel_value, h]
    simp [fuelValues, fuelPairs]
  · simpa only [max_fuel_value] using h

/-- `find?` returns the unique element satisfying the predicate when the
predicate holds exactly once in the list. -/
lemma find_of_unique (m : ℤ) :
    ∀ (l : List (String × ℤ)) (p : String × ℤ),
      p ∈ l → p.2 = m →
      l.countP (fun q => decide (q.2 = m)) = 1 →
      l.find? (fun q => decide (q.2 = m)) = some p := by
  intro l
  induction l with
  | nil => intro p hp _ _; exact absurd hp (List.not_mem_nil p)
  | cons a t ih =>
    intro p hp hpm hcount
    by_cases ha : a.2 = m
    · rw [List.find?_cons_of_pos _ (by simpa using ha)]
      rcases List.mem_cons.mp hp with h | h
      · rw [h]
      · exfalso
        have h1 : 0 < t.countP (fun q => decide (q.2 = m)) :=
          List.countP_pos_iff.mpr ⟨p, h, by simpa using hpm⟩
        have h2 : (a :: t).countP (fun q => decide (q.2 = m)) =
            t.countP (fun q => decide (q.2 = m)) + 1 := by
          simp [List.countP_cons, ha]
        omega
    · rw [List.find?_cons_of_neg _ (by simpa using ha)]
      have hp' : p ∈ t := by
        rcases List.mem_cons.mp hp with h | h
        · exact absurd (h ▸ hpm) ha
        · exact h
      have hcount' : t.countP (fun q => decide (q.2 = m)) = 1 := by
        rw [List.countP_cons_of_neg] at hcount
        · exact hcount
        · simpa using ha
      exact ih p hp' hpm hcount'

/-- Every name in the scan list is one of the nine canonical fuel names. -/
lemma fuelPairs_fst_mem {r : Row} {p : String × ℤ} (h : p ∈ fuelPairs r) :
    p.1 ∈ fuel_columns := by
  simp only [fuelPairs, List.mem_cons, List.not_mem_nil, or_false] at h
  rcases h with h|h|h|h|h|h|h|h|h <;> subst h <;> simp [fuel_columns]

/-! ### Example rows -/

/-- Spec example: Natural_Gas 80, all else 0, total 100. -/
def hfRow1 : Row := ⟨"14000US36061000100", some 100, 80, 0, 0, 0, 0, 0, 0, 0, 0⟩

/-- A row with a null (NaN) total and all fuel counts zero. -/
def hfRowNull : Row := ⟨"x", none, 0, 0, 0, 0, 0, 0, 0, 0, 0⟩

/-- Spec example: a row with total 0 and all nine fuel counts tied at 0. -/
def hfRowZero : Row := ⟨"x", some 0, 0, 0, 0, 0, 0, 0, 0, 0, 0⟩

/-! ### Claim theorems -/

/-- C1: for a Valid_Data row, if exactly one of the nine fuel fields equals
the row maximum then `Dom_Fuel_Type` is that field's canonical name (the
first — and only — match of the canonical-order scan) and
`Dom_Fuel_Count`/`Dom_Fuel_Pct` are the maximum count and its rounded
percentage; if two or more fields equal the maximum then
`Dom_Fuel_Type = "Tie"` and `Dom_Fuel_Count`/`Dom_Fuel_Pct` are undefined. -/
theorem dominant_fuel_selection (r : Row)
    (hq : Data_Quality_Check r = "Valid_Data") :
    (∀ p ∈ fuelPairs r, p.2 = max_fuel_value r → tie_count r = 1 →
      Dom_Fuel_Type r = p.1 ∧
      Dom_Fuel_Count r = some (max_fuel_value r) ∧
      ∀ t : ℤ, r.Total_Housing_Units = some t →
        Dom_Fuel_Pct r =
          some (round1 ((max_fuel_value r : ℚ) / (t : ℚ) * 100))) ∧
    (2 ≤ tie_count r →
      Dom_Fuel_Type r = "Tie" ∧ Dom_Fuel_Count r = none ∧
      Dom_Fuel_Pct r = none) := by
  have hne := valid_ne_insufficient hq
  constructor
  · intro p hp hpm htc
    have hTie : Has_Dom_Tie r = false := hasDomTie_eq_false r (le_of_eq htc)
    have hTie' : ¬ Has_Dom_Tie r = true := by simp [hTie]
    have hcount :
        (fuelPairs r).countP (fun q => decide (q.2 = max_fuel_value r)) = 1 := by
      rw [← tie_count_eq_pairs]; exact htc
    have hfind := find_of_unique (max_fuel_value r) (fuelPairs r) p hp hpm hcount
    refine ⟨?_, ?_, ?_⟩
    · unfold Dom_Fuel_Type identify_dominant_fuel
      rw [if_neg hne, if_neg hTie', hfind]
    · unfold Dom_Fuel_Count
      rw [if_neg (by push_neg; exact ⟨hne, hTie'⟩)]
    · intro t ht
      unfold Dom_Fuel_Pct
      rw [if_neg (by push_neg; exact ⟨hne, hTie'⟩), ht]
  · intro h2
    obtain ⟨t, ht, htpos⟩ := (valid_iff r).mp hq
    have h0 : r.Total_Housing_Units ≠ some 0 := by
      rw [ht]; intro hc; injection hc with hc; omega
    have hTie : Has_Dom_Tie r = true := hasDomTie_eq_true r (by omega) h0
    refine ⟨?_, ?_, ?_⟩
    · unfold Dom_Fuel_Type identify_dominant_fuel
      rw [if_neg hne, if_pos hTie]
    · unfold Dom_Fuel_Count
      rw [if_pos (Or.inr hTie)]
    · unfold Dom_Fuel_Pct
      rw [if_pos (Or.inr hTie)]

/-- C1 witness: the spec's example row (Natural_Gas 80, total 100). -/
theorem dominant_fuel_selection_witness :
    Dom_Fuel_Type hfRow1 = "Natural_Gas" ∧
    Dom_Fuel_Count hfRow1 = some 80 ∧
    Dom_Fuel_Pct hfRow1 = some 80 := by
  have h := (dominant_fuel_selection hfRow1 (by decide)).1
    ("Natural_Gas", (80 : ℤ)) (by decide) (by decide) (by decide)
  refine ⟨h.1, ?_, ?_⟩
  · rw [h.2.1]; decide
  · rw [h.2.2 100 (by decide)]
    have hm : max_fuel_value hfRow1 = 80 := by decide
    rw [hm]
    norm_num [round1, roundHalfEven]

/-- C2: the quality flag is `Valid_Data` iff the total is present and
positive, `Insufficient_Data` otherwise, and an insufficient row is labelled
`No_Data` (regardless of ties) with undefined dominant count/percentage. -/
theorem quality_flag (r : Row) :
    (Data_Quality_Check r = "Valid_Data" ↔
       ∃ t, r.Total_Housing_Units = some t ∧ 0 < t) ∧
    (¬ (∃ t, r.Total_Housing_Units = some t ∧ 0 < t) →
       Data_Quality_Check r = "Insufficient_Data") ∧
    (Data_Quality_Check r = "Insufficient_Data" →
       Dom_Fuel_Type r = "No_Data" ∧ Dom_Fuel_Count r = none ∧
       Dom_Fuel_Pct r = none) := by
  refine ⟨valid_iff r, ?_, ?_⟩
  · intro h
    rcases quality_dichotomy r with hv | hi
    · exact absurd ((valid_iff r).mp hv) h
    · exact hi
  · intro h
    refine ⟨?_, ?_, ?_⟩
    · unfold Dom_Fuel_Type identify_dominant_fuel; rw [if_pos h]
    · unfold Dom_Fuel_Count; rw [if_pos (Or.inl h)]
    · unfold Dom_Fuel_Pct; rw [if_pos (Or.inl h)]

/-- C2 witness: a null-total row, all fuels tied at 0 — `No_Data` wins over
the tie. -/
theorem quality_flag_witness :
    Data_Quality_Check hfRowNull = "Insufficient_Data" ∧
    Has_Dom_Tie hfRowNull = true ∧
    Dom_Fuel_Type hfRowNull = "No_Data" ∧
    Dom_Fuel_Count hfRowNull = none ∧ Dom_Fuel_Pct hfRowNull = none := by
  have h := (quality_flag hfRowNull).2.2 (by decide)
  exact ⟨by decide, by decide, h.1, h.2.1, h.2.2⟩

/-- C3: `Has_Dom_Tie` is true iff more than one fuel field equals the row
maximum and the total is not 0; a zero-total row is never tie-flagged and is
classified `Insufficient_Data` / `No_Data`. -/
theorem tie_flag (r : Row) :
    (Has_Dom_Tie r = true ↔
       1 < tie_count r ∧ r.Total_Housing_Units ≠ some 0) ∧
    (r.Total_Housing_Units = some 0 →
      Has_Dom_Tie r = false ∧ Data_Quality_Check r = "Insufficient_Data" ∧
      Dom_Fuel_Type r = "No_Data") := by
  constructor
  · unfold Has_Dom_Tie
    split_ifs with h0
    · simp [h0]
    · simp [h0]
  · intro h0
    have hfalse : Has_Dom_Tie r = false := by
      unfold Has_Dom_Tie; rw [if_pos h0]
    have hins : Data_Quality_Check r = "Insufficient_Data" := by
      unfold Data_Quality_Check; rw [h0]; norm_num
    refine ⟨hfalse, hins, ?_⟩
    unfold Dom_Fuel_Type identify_dominant_fuel
    rw [if_pos hins]

/-- C3 witness: the spec's zero-total row with all nine fields tied at 0. -/
theorem tie_flag_witness :
    Has_Dom_Tie hfRowZero = false ∧
    Data_Quality_Check hfRowZero = "Insufficient_Data" ∧
    Dom_Fuel_Type hfRowZero = "No_Data" ∧ tie_count hfRowZero = 9 := by
  have h := (tie_flag hfRowZero).2 (by decide)
  exact ⟨h.1, h.2.1, h.2.2, by decide⟩

/-- A Valid_Data row whose Natural_Gas count exceeds its total: nothing in
the source prevents a fuel count from exceeding `Total_Housing_Units`. -/
def hfRowOver : Row := ⟨"x", some 100, 200, 0, 0, 0, 0, 0, 0, 0, 0⟩

/-- C4 counterexample: on a Valid_Data row with a fuel count above the
total, the percentage column exceeds 100 — the claimed `[0, 100]` bound
fails as stated. -/
theorem pct_range_counterexample :
    Data_Quality_Check hfRowOver = "Valid_Data" ∧
    ("Natural_Gas", hfRowOver.Natural_Gas) ∈ fuelPairs hfRowOver ∧
    Pct hfRowOver hfRowOver.Natural_Gas = some 200 ∧
    ¬ ((200 : ℚ) ≤ 100) := by
  refine ⟨by decide, by decide, ?_, by norm_num⟩
  have hq : ¬ Data_Quality_Check hfRowOver = "Insufficient_Data" := by decide
  unfold Pct
  rw [if_neg hq]
  norm_num [hfRowOver, round1, roundHalfEven]

/-- C4 amended: on a Valid_Data row every `Pct_*` field is defined, and it
lies within `[0, 100]` whenever the fuel count is between 0 and the total
(a precondition the source does not enforce). -/
theorem pct_range (r : Row) (t : ℤ) (ht : r.Total_Housing_Units = some t)
    (htpos : 0 < t) :
    (∀ p ∈ fuelPairs r, ∃ q, Pct r p.2 = some q) ∧
    (∀ p ∈ fuelPairs r, 0 ≤ p.2 → p.2 ≤ t →
       ∃ q, Pct r p.2 = some q ∧ 0 ≤ q ∧ q ≤ 100) := by
  have hq : Data_Quality_Check r = "Valid_Data" :=
    (valid_iff r).mpr ⟨t, ht, htpos⟩
  have hne := valid_ne_insufficient hq
  have hform : ∀ v : ℤ, Pct r v = some (round1 (((v : ℚ) / (t : ℚ)) * 100)) := by
    intro v
    unfold Pct
    rw [if_neg hne, ht]
  constructor
  · intro p _
    exact ⟨_, hform p.2⟩
  · intro p _ hv0 hvt
    have htq : (0 : ℚ) < (t : ℚ) := by exact_mod_cast htpos
    have hx0 : (0 : ℚ) ≤ ((p.2 : ℚ) / (t : ℚ)) * 100 := by
      apply mul_nonneg _ (by norm_num)
      exact div_nonneg (by exact_mod_cast hv0) (le_of_lt htq)
    have hx100 : ((p.2 : ℚ) / (t : ℚ)) * 100 ≤ 100 := by
      have hle : ((p.2 : ℚ) / (t : ℚ)) ≤ 1 :=
        (div_le_one htq).mpr (by exact_mod_cast hvt)
      nlinarith
    obtain ⟨hb0, hb100⟩ := round1_bounds hx0 hx100
    exact ⟨_, hform p.2, hb0, hb100⟩

/-- C4 amended witness: the spec's example row, Natural_Gas 80 of 100. -/
theorem pct_range_witness :
    ∃ q, Pct hfRow1 (80 : ℤ) = some q ∧ 0 ≤ q ∧ q ≤ 100 := by
  exact (pct_range hfRow1 100 (by decide) (by decide)).2
    ("Natural_Gas", (80 : ℤ)) (by decide) (by decide) (by decide)

/-- C5: each of the nine percentage columns equals
`round(100 * count / total, 1)` on a Valid_Data row and is undefined (NaN,
modelled `none`) on an Insufficient_Data row. -/
theorem pct_formula (r : Row) :
    (∀ t : ℤ, r.Total_Housing_Units = some t →
       Data_Quality_Check r = "Valid_Data" →
       ∀ p ∈ fuelPairs r,
         Pct r p.2 = some (round1 (100 * (p.2 : ℚ) / (t : ℚ)))) ∧
    (Data_Quality_Check r = "Insufficient_Data" →
       ∀ p ∈ fuelPairs r, Pct r p.2 = none) := by
  constructor
  · intro t ht hq p _
    have hne := valid_ne_insufficient hq
    unfold Pct
    rw [if_neg hne, ht]
    dsimp only
    have harg : ((p.2 : ℚ) / (t : ℚ)) * 100 = 100 * (p.2 : ℚ) / (t : ℚ) := by
      ring
    rw [harg]
  · intro hq p _
    unfold Pct
    rw [if_pos hq]

/-- C5 witness: Natural_Gas 80 of 100 gives 80.0; a null-total row has no
percentage. -/
theorem pct_formula_witness :
    Pct hfRow1 (80 : ℤ) = some 80 ∧ Pct hfRowNull (0 : ℤ) = none := by
  constructor
  · have h := (pct_formula hfRow1).1 100 (by decide) (by decide)
      ("Natural_Gas", (80 : ℤ)) (by decide)
    rw [h]
    norm_num [round1, roundHalfEven]
  · exact (pct_formula hfRowNull).2 (by decide) ("Natural_Gas", (0 : ℤ))
      (by decide)

/-- C6: the `Error` sentinel of the dominant-fuel scan is unreachable: the
row maximum is always attained by one of the nine fields, so the scan always
finds a match. -/
theorem error_sentinel_unreachable (r : Row) : Dom_Fuel_Type r ≠ "Error" := by
  unfold Dom_Fuel_Type identify_dominant_fuel
  split_ifs with h1 h2
  · decide
  · decide
  · obtain ⟨p, hp, hpm⟩ : ∃ p ∈ fuelPairs r, p.2 = max_fuel_value r := by
      have hmem := max_fuel_mem r
      simp only [fuelValues, List.mem_map] at hmem
      obtain ⟨p, hp, hpv⟩ := hmem
      exact ⟨p, hp, hpv⟩
    cases hfind : (fuelPairs r).find? (fun q => decide (q.2 = max_fuel_value r)) with
    | none =>
      exfalso
      rw [List.find?_eq_none] at hfind
      have hcontra := hfind p hp
      simp only [decide_eq_true_eq] at hcontra
      exact hcontra hpm
    | some q =>
      have hq : q.1 ∈ fuel_columns :=
        fuelPairs_fst_mem (List.mem_of_find?_eq_some hfind)
      simp only [fuel_columns, List.mem_cons, List.not_mem_nil, or_false] at hq
      rcases hq with h|h|h|h|h|h|h|h|h <;> simp [h]

/-- C7: an unsupported year makes the classifier fail with the error message
naming the invalid value and produces no output; each of the three supported
years passes the gate and yields the classified table. -/
theorem year_gate :
    (∀ (year : ℤ) (df : List Row),
       year ≠ 2015 → year ≠ 2020 → year ≠ 2023 →
       process_heating_fuel_data df year =
         Except.error
           ("Year must be 2015, 2020, or 2023. Got: " ++ toString year)) ∧
    (∀ (year : ℤ) (df : List Row),
       year = 2015 ∨ year = 2020 ∨ year = 2023 →
       process_heating_fuel_data df year =
         Except.ok (df.map classifyRow)) := by
  constructor
  · intro y df h1 h2 h3
    unfold process_heating_fuel_data column_mappings
    rw [if_neg h1, if_neg h2, if_neg h3]
  · intro y df h
    rcases h with h | h | h <;> subst h <;> rfl

/-- C7 witness: year 2019 is rejected with the message naming it; year 2020
passes. -/
theorem year_gate_witness :
    process_heating_fuel_data [] 2019 =
      Except.error "Year must be 2015, 2020, or 2023. Got: 2019" ∧
    process_heating_fuel_data ([] : List Row) 2020 = Except.ok [] := by
  constructor
  · rw [year_gate.1 2019 [] (by decide) (by decide) (by decide)]
    rfl
  · exact year_gate.2 2020 [] (by norm_num)

/-- C8: the category simplifier is total: the five named fuels pass through,
the four rare/tie categories collapse to `Other`, and every other string —
`No_Fuel`, `No_Data`, and the `Error` sentinel included — falls into the
catch-all `No_Fuel_Missing` branch. -/
theorem simplifier_total :
    (∀ s ∈ (["Electricity", "Natural_Gas", "Propane", "Fuel_Oil",
             "Wood"] : List String),
        simplify_fuel_categories s = s) ∧
    (∀ s ∈ (["Tie", "Coal", "Solar", "Other"] : List String),
        simplify_fuel_categories s = "Other") ∧
    (∀ s : String,
        s ∉ (["Electricity", "Natural_Gas", "Propane", "Fuel_Oil",
              "Wood"] : List String) →
        s ∉ (["Tie", "Coal", "Solar", "Other"] : List String) →
        simplify_fuel_categories s = "No_Fuel_Missing") := by
  refine ⟨?_, ?_, ?_⟩
  · intro s hs
    simp only [List.mem_cons, List.not_mem_nil, or_false] at hs
    rcases hs with h|h|h|h|h <;> subst h <;> rfl
  · intro s hs
    simp only [List.mem_cons, List.not_mem_nil, or_false] at hs
    rcases hs with h|h|h|h <;> subst h <;> rfl
  · intro s h1 h2
    unfold simplify_fuel_categories
    rw [if_neg h1, if_neg h2]

/-- C8 witness: the spec's examples plus the `Error` sentinel through the
catch-all. -/
theorem simplifier_total_witness :
    simplify_fuel_categories "Error" = "No_Fuel_Missing" ∧
    simplify_fuel_categories "No_Data" = "No_Fuel_Missing" ∧
    simplify_fuel_categories "No_Fuel" = "No_Fuel_Missing" ∧
    simplify_fuel_categories "Coal" = "Other" ∧
    simplify_fuel_categories "Electricity" = "Electricity" :=
  ⟨simplifier_total.2.2 "Error" (by decide) (by decide),
   simplifier_total.2.2 "No_Data" (by decide) (by decide),
   simplifier_total.2.2 "No_Fuel" (by decide) (by decide),
   simplifier_total.2.1 "Coal" (by decide),
   simplifier_total.1 "Electricity" (by decide)⟩

/-- C9: on an identifier of length at least 11, `FIPS_Code` is exactly the
last 11 characters: it agrees with the spec-side `lastEleven`, has length
11, and is a suffix of the identifier. -/
theorem fips_extraction (s : String) (h : 11 ≤ s.length) :
    FIPS_Code s = lastEleven s ∧ (FIPS_Code s).length = 11 ∧
    ∃ p : String, p ++ FIPS_Code s = s := by
  obtain ⟨l⟩ := s
  have hl : 11 ≤ l.length := h
  refine ⟨?_, ?_, ?_⟩
  · show String.mk (l.drop (l.length - 11)) =
      String.mk ((l.reverse.take 11).reverse)
    congr 1
    rw [← List.rtake_eq_reverse_take_reverse]
    rfl
  · show (l.drop (l.length - 11)).length = 11
    rw [List.length_drop]
    omega
  · refine ⟨String.mk (l.take (l.length - 11)), ?_⟩
    show String.mk (l.take (l.length - 11) ++ l.drop (l.length - 11)) =
      String.mk l
    rw [List.take_append_drop]

/-- C9 witness: the spec's example identifier. -/
theorem fips_extraction_witness :
    FIPS_Code "14000US36061000100" = lastEleven "14000US36061000100" ∧
    (FIPS_Code "14000US36061000100").length = 11 ∧
    ∃ p : String, p ++ FIPS_Code "14000US36061000100" = "14000US36061000100" :=
  fips_extraction "14000US36061000100" (by decide)

/-- C10: on an identifier shorter than 11 characters the slice returns the
whole string unchanged — no failure, no padding, no truncation. -/
theorem fips_short (s : String) (h : s.length < 11) : FIPS_Code s = s := by
  obtain ⟨l⟩ := s
  have hl : l.length < 11 := h
  show String.mk (l.drop (l.length - 11)) = String.mk l
  congr 1
  have h0 : l.length - 11 = 0 := by omega
  rw [h0, List.drop_zero]

/-- C10 witness: a 5-character identifier passes through unchanged. -/
theorem fips_short_witness : FIPS_Code "36061" = "36061" :=
  fips_short "36061" (by decide)

end HeatingFuel
